import Mathlib

/-!
Verification of `jules-scratch/verification/verify_delete_button.py`.

The script drives a headless browser through a fixed UI scenario via the
Playwright synchronous API:

  browser = playwright.chromium.launch(headless=True)
  context = browser.new_context()
  page = context.new_page()
  try:
      page.goto("http://localhost:3000/mobile-test")
      page.locator("button", has_text="Add Hotspot").click()
      page.locator(".hotspot-element").click()
      page.locator("button[aria-label=...Delete hotspot...]").click()
      expect(page.locator(".hotspot-element")).to_have_count(0)
      page.screenshot(path="jules-scratch/verification/verification.png")
  finally:
      browser.close()

We embed the script as a function from a `World` — the outcomes the
external browser/automation library would produce for each call — to the
trace of automation-library calls the script issues together with the
error (if any) that propagates out of the script.  The callee semantics
(locator auto-wait timeout on zero matches, strict-mode violation on
multiple matches, viewport-only screenshot by default) follow the
documented Playwright contract.
-/

/-- A locator expression as built by the script.  `cssAttrEq base attr v`
stands for the CSS attribute selector `base[attr=v]` (the script uses it
for the delete button with attribute `aria-label`). -/
inductive Locator where
  | buttonHasText (text : String)
  | css (sel : String)
  | cssAttrEq (base attr value : String)
deriving DecidableEq

/-- Hardcoded navigation target of `page.goto`. -/
def targetUrl : String := "http://localhost:3000/mobile-test"

/-- Hardcoded screenshot output path. -/
def screenshotPath : String := "jules-scratch/verification/verification.png"

/-- Locator of line 12: `page.locator("button", has_text="Add Hotspot")`. -/
def addHotspotLoc : Locator := .buttonHasText "Add Hotspot"

/-- Locator of lines 15 and 21: `page.locator(".hotspot-element")`. -/
def hotspotLoc : Locator := .css ".hotspot-element"

/-- Locator of line 18: the button with accessibility label `Delete hotspot`. -/
def deleteLoc : Locator := .cssAttrEq "button" "aria-label" "Delete hotspot"

/-- One automation-library call issued by the script, with the arguments
the script passes.  `screenshot` records the `full_page` flag actually in
effect for the call (Playwright defaults it to `false` when, as in the
script, it is not passed). -/
inductive Call where
  | launch (headless : Bool)
  | newContext
  | newPage
  | goto (url : String)
  | click (loc : Locator)
  | expectCount (loc : Locator) (expected : Nat)
  | screenshot (path : String) (fullPage : Bool)
  | closeBrowser
deriving DecidableEq

/-- An error raised by an automation-library call; uncaught errors
propagate out of the Python script to the process boundary. -/
inductive PwError where
  | launchFailed
  | contextFailed
  | pageFailed
  | navigationFailed
  | timeout (loc : Locator)
  | strictModeViolation (loc : Locator)
  | clickFailed (loc : Locator)
  | countMismatch (loc : Locator) (expected actual : Nat)
  | screenshotFailed
  | closeFailed
deriving DecidableEq

/-- The environment of one run: how the external browser process and the
page under test respond to each call the script makes.  Match counts are
the number of DOM elements each locator resolves to at the moment the
script queries it. -/
structure World where
  launchOk : Bool
  contextOk : Bool
  pageOk : Bool
  gotoOk : Bool
  addButtonMatches : Nat
  addClickOk : Bool
  hotspotMatches : Nat
  hotspotClickOk : Bool
  deleteButtonMatches : Nat
  deleteClickOk : Bool
  hotspotCountAfterDelete : Nat
  screenshotOk : Bool
  closeOk : Bool

/-- Outcome of `locator.click()` under the documented Playwright locator
semantics: auto-wait times out when no element matches, a strict-mode
violation is raised when more than one element matches, and otherwise the
single matched element is clicked (the interaction itself may still
fail). -/
def clickOutcome (matchCount : Nat) (interactionOk : Bool) (loc : Locator) :
    Option PwError :=
  if matchCount = 0 then some (.timeout loc)
  else if 1 < matchCount then some (.strictModeViolation loc)
  else if interactionOk then none
  else some (.clickFailed loc)

/-- Outcome of `expect(locator).to_have_count(0)`: succeeds exactly when
the actual count is `0`, otherwise raises a count-mismatch assertion
error. -/
def expectZeroOutcome (actual : Nat) : Option PwError :=
  if actual = 0 then none
  else some (.countMismatch hotspotLoc 0 actual)

/-- The statements of the `try` block, in source order (lines 9–23): each
is the call issued together with the outcome the world assigns to it. -/
def scriptSteps (w : World) : List (Call × Option PwError) :=
  [ (.goto targetUrl, if w.gotoOk then none else some .navigationFailed),
    (.click addHotspotLoc,
      clickOutcome w.addButtonMatches w.addClickOk addHotspotLoc),
    (.click hotspotLoc,
      clickOutcome w.hotspotMatches w.hotspotClickOk hotspotLoc),
    (.click deleteLoc,
      clickOutcome w.deleteButtonMatches w.deleteClickOk deleteLoc),
    (.expectCount hotspotLoc 0, expectZeroOutcome w.hotspotCountAfterDelete),
    (.screenshot screenshotPath false,
      if w.screenshotOk then none else some .screenshotFailed) ]

/-- Sequential execution of statements with exception propagation: each
call is issued in order until one raises, and the first error aborts the
rest of the sequence. -/
def runSteps : List (Call × Option PwError) → List Call × Option PwError
  | [] => ([], none)
  | (c, r) :: rest =>
    match r with
    | some e => ([c], some e)
    | none =>
      let p := runSteps rest
      (c :: p.1, p.2)

/-- The body of the `try` block (lines 9–23). -/
def tryBody (w : World) : List Call × Option PwError :=
  runSteps (scriptSteps w)

/-- The `run` function of the script (lines 3–25): launch, context and
page creation happen before the `try` block, so an error in any of them
propagates without reaching the `finally` clause; once the `try` block is
entered, `browser.close()` runs on every exit path, and an error raised
by `close` itself supersedes the error of the body, as in Python `finally`
semantics. -/
def run (w : World) : List Call × Option PwError :=
  if ¬ w.launchOk then ([.launch true], some .launchFailed)
  else if ¬ w.contextOk then ([.launch true, .newContext], some .contextFailed)
  else if ¬ w.pageOk then
    ([.launch true, .newContext, .newPage], some .pageFailed)
  else
    let body := tryBody w
    ([.launch true, .newContext, .newPage] ++ body.1 ++ [.closeBrowser],
     if w.closeOk then body.2 else some .closeFailed)

/-- Process exit status of a run: `0` when no error propagates out of the
script, `1` (the Python uncaught-exception status) otherwise. -/
def exitCode (w : World) : Nat :=
  match (run w).2 with
  | none => 0
  | some _ => 1

/-- The filesystem writes a trace performs: the paths of its screenshot
calls (the script performs no other write). -/
def writesOf (tr : List Call) : List String :=
  tr.filterMap fun c =>
    match c with
    | .screenshot p _ => some p
    | _ => none

/-- The module-level entry point (lines 27–28): the script consumes no
command-line arguments and no environment variables — neither `sys.argv`
nor `os.environ` is referenced anywhere in the source — so the invocation
ignores `argv` and `env` and just runs the scenario. -/
def mainEntry (_argv : List String) (_env : List (String × String))
    (w : World) : List Call × Option PwError :=
  run w

/-- The full sequence of automation calls of a successful run. -/
def fullScriptCalls : List Call :=
  [ .launch true, .newContext, .newPage, .goto targetUrl,
    .click addHotspotLoc, .click hotspotLoc, .click deleteLoc,
    .expectCount hotspotLoc 0, .screenshot screenshotPath false,
    .closeBrowser ]

/-- All external interactions succeed and the final hotspot count is `0`. -/
def allOk (w : World) : Prop :=
  w.launchOk = true ∧ w.contextOk = true ∧ w.pageOk = true ∧
  w.gotoOk = true ∧
  w.addButtonMatches = 1 ∧ w.addClickOk = true ∧
  w.hotspotMatches = 1 ∧ w.hotspotClickOk = true ∧
  w.deleteButtonMatches = 1 ∧ w.deleteClickOk = true ∧
  w.hotspotCountAfterDelete = 0 ∧ w.screenshotOk = true ∧ w.closeOk = true

instance (w : World) : Decidable (allOk w) := by
  unfold allOk; infer_instance

/-- Every step up to and including the zero-count assertion succeeds, so
control reaches the screenshot statement. -/
def reachesScreenshot (w : World) : Bool :=
  w.launchOk && w.contextOk && w.pageOk && w.gotoOk &&
  (clickOutcome w.addButtonMatches w.addClickOk addHotspotLoc).isNone &&
  (clickOutcome w.hotspotMatches w.hotspotClickOk hotspotLoc).isNone &&
  (clickOutcome w.deleteButtonMatches w.deleteClickOk deleteLoc).isNone &&
  (w.hotspotCountAfterDelete == 0)

/-- A world in which every external call succeeds. -/
def allGoodWorld : World :=
  ⟨true, true, true, true, 1, true, 1, true, 1, true, 0, true, true⟩

/-- A world in which `browser.new_context()` raises. -/
def ctxFailWorld : World :=
  ⟨true, false, true, true, 1, true, 1, true, 1, true, 0, true, true⟩

/-- A world in which deletion leaves one hotspot marker behind. -/
def staleHotspotWorld : World :=
  ⟨true, true, true, true, 1, true, 1, true, 1, true, 1, true, true⟩

example : (run allGoodWorld).1 = fullScriptCalls := by decide
example : (run allGoodWorld).2 = none := by decide
example : exitCode allGoodWorld = 0 := by decide
example : Call.closeBrowser ∉ (run ctxFailWorld).1 := by decide
example : (run staleHotspotWorld).2 =
    some (.countMismatch hotspotLoc 0 1) := by decide
example : writesOf (run staleHotspotWorld).1 = [] := by decide
example : writesOf (run allGoodWorld).1 = [screenshotPath] := by decide

/-- No screenshot call in the trace has the full-page flag set. -/
def noFullPageShot (tr : List Call) : Bool :=
  tr.all fun c =>
    match c with
    | .screenshot _ fp => !fp
    | _ => true

/-- A world in which `browser.new_page()` raises. -/
def pageFailWorld : World :=
  ⟨true, true, false, true, 1, true, 1, true, 1, true, 0, true, true⟩

/-- A world in which the Add-Hotspot button locator matches nothing. -/
def noAddButtonWorld : World :=
  ⟨true, true, true, true, 0, true, 0, true, 0, true, 0, true, true⟩

/-- A world in which two elements match the Add-Hotspot button locator. -/
def multiAddWorld : World :=
  ⟨true, true, true, true, 2, true, 1, true, 1, true, 0, true, true⟩

/-- A world in which two hotspot markers are present at the select step. -/
def multiHotspotWorld : World :=
  ⟨true, true, true, true, 1, true, 2, true, 1, true, 0, true, true⟩

/-- A world in which two elements match the delete-button locator. -/
def multiDeleteWorld : World :=
  ⟨true, true, true, true, 1, true, 1, true, 2, true, 0, true, true⟩

theorem runSteps_sublist (l : List (Call × Option PwError)) :
    ((runSteps l).1).Sublist (l.map Prod.fst) := by
  induction l with
  | nil => simp [runSteps]
  | cons hd tl ih =>
    obtain ⟨c, r⟩ := hd
    cases r with
    | none => simpa [runSteps] using ih.cons₂ c
    | some e => simp [runSteps]

theorem runSteps_none_trace (l : List (Call × Option PwError))
    (h : (runSteps l).2 = none) : (runSteps l).1 = l.map Prod.fst := by
  induction l with
  | nil => simp [runSteps]
  | cons hd tl ih =>
    obtain ⟨c, r⟩ := hd
    cases r with
    | none =>
      simp only [runSteps] at h ⊢
      rw [ih h]
      simp
    | some e => simp [runSteps] at h

theorem runSteps_none_iff (l : List (Call × Option PwError)) :
    (runSteps l).2 = none ↔ ∀ p ∈ l, p.2 = none := by
  induction l with
  | nil => simp [runSteps]
  | cons hd tl ih =>
    obtain ⟨c, r⟩ := hd
    cases r with
    | none => simpa [runSteps] using ih
    | some e => simp [runSteps]

theorem clickOutcome_eq_none (m : Nat) (ok : Bool) (loc : Locator) :
    clickOutcome m ok loc = none ↔ m = 1 ∧ ok = true := by
  unfold clickOutcome
  split_ifs with h0 h1 h2 <;> simp_all <;> omega

theorem scriptSteps_map_fst (w : World) :
    (scriptSteps w).map Prod.fst =
      [Call.goto targetUrl, .click addHotspotLoc, .click hotspotLoc,
       .click deleteLoc, .expectCount hotspotLoc 0,
       .screenshot screenshotPath false] := by
  simp [scriptSteps]

theorem run_launch_fail (w : World) (h : w.launchOk = false) :
    run w = ([.launch true], some .launchFailed) := by
  unfold run
  rw [h]
  simp

theorem run_context_fail (w : World) (h1 : w.launchOk = true)
    (h2 : w.contextOk = false) :
    run w = ([.launch true, .newContext], some .contextFailed) := by
  unfold run
  rw [h1, h2]
  simp

theorem run_page_fail (w : World) (h1 : w.launchOk = true)
    (h2 : w.contextOk = true) (h3 : w.pageOk = false) :
    run w = ([.launch true, .newContext, .newPage], some .pageFailed) := by
  unfold run
  rw [h1, h2, h3]
  simp

theorem run_created (w : World) (h1 : w.launchOk = true)
    (h2 : w.contextOk = true) (h3 : w.pageOk = true) :
    run w = ([Call.launch true, .newContext, .newPage] ++ (tryBody w).1 ++
        [Call.closeBrowser],
      if w.closeOk then (tryBody w).2 else some .closeFailed) := by
  unfold run
  rw [h1, h2, h3]
  simp

theorem tryBody_sublist (w : World) :
    ((tryBody w).1).Sublist
      [Call.goto targetUrl, .click addHotspotLoc, .click hotspotLoc,
       .click deleteLoc, .expectCount hotspotLoc 0,
       .screenshot screenshotPath false] := by
  have h := runSteps_sublist (scriptSteps w)
  rwa [scriptSteps_map_fst] at h

theorem run_sublist (w : World) : ((run w).1).Sublist fullScriptCalls := by
  rcases h1 : w.launchOk with _ | _
  · rw [run_launch_fail w h1]; decide
  rcases h2 : w.contextOk with _ | _
  · rw [run_context_fail w h1 h2]; decide
  rcases h3 : w.pageOk with _ | _
  · rw [run_page_fail w h1 h2 h3]; decide
  rw [run_created w h1 h2 h3]
  have hfull : fullScriptCalls =
      [Call.launch true, .newContext, .newPage] ++
        ([Call.goto targetUrl, .click addHotspotLoc, .click hotspotLoc,
          .click deleteLoc, .expectCount hotspotLoc 0,
          .screenshot screenshotPath false] ++ [Call.closeBrowser]) := by
    decide
  rw [hfull]
  show ([Call.launch true, .newContext, .newPage] ++ (tryBody w).1 ++
      [Call.closeBrowser]).Sublist _
  rw [List.append_assoc]
  exact (List.Sublist.refl _).append
    ((tryBody_sublist w).append (List.Sublist.refl _))

theorem run_none_trace (w : World) (h : (run w).2 = none) :
    (run w).1 = fullScriptCalls := by
  rcases h1 : w.launchOk with _ | _
  · rw [run_launch_fail w h1] at h; simp at h
  rcases h2 : w.contextOk with _ | _
  · rw [run_context_fail w h1 h2] at h; simp at h
  rcases h3 : w.pageOk with _ | _
  · rw [run_page_fail w h1 h2 h3] at h; simp at h
  rw [run_created w h1 h2 h3] at h ⊢
  rcases hc : w.closeOk with _ | _
  · rw [hc] at h; simp at h
  rw [hc] at h
  simp only [if_pos rfl] at h ⊢
  have hb := runSteps_none_trace (scriptSteps w) h
  show [Call.launch true, .newContext, .newPage] ++
      (runSteps (scriptSteps w)).1 ++ [Call.closeBrowser] = fullScriptCalls
  rw [hb, scriptSteps_map_fst]
  decide

theorem if_none_iff (c : Bool) (e : PwError) :
    ((if c then none else some e) = none) ↔ c = true := by
  cases c <;> simp

theorem expectZeroOutcome_eq_none (n : Nat) :
    expectZeroOutcome n = none ↔ n = 0 := by
  unfold expectZeroOutcome
  split_ifs with h <;> simp_all

theorem run_none_iff (w : World) : (run w).2 = none ↔ allOk w := by
  rcases h1 : w.launchOk with _ | _
  · rw [run_launch_fail w h1]; simp [allOk, h1]
  rcases h2 : w.contextOk with _ | _
  · rw [run_context_fail w h1 h2]; simp [allOk, h1, h2]
  rcases h3 : w.pageOk with _ | _
  · rw [run_page_fail w h1 h2 h3]; simp [allOk, h1, h2, h3]
  rw [run_created w h1 h2 h3]
  rcases hc : w.closeOk with _ | _
  · simp [allOk, hc]
  show (runSteps (scriptSteps w)).2 = none ↔ allOk w
  rw [runSteps_none_iff]
  simp [scriptSteps, allOk, h1, h2, h3, hc, clickOutcome_eq_none,
    expectZeroOutcome_eq_none, if_none_iff, and_assoc]

/-- C1: the script issues its automation calls in the fixed source order —
every trace is a subsequence of the full call sequence, so no step is
reordered or repeated by the script itself — and on a run in which no
error propagates it issues exactly the full sequence: launch one headless
browser, create one context, open one page, navigate to the fixed URL,
click the control with visible text `Add Hotspot`, click the element
with the hotspot-marker class selector, click the control with
accessibility label `Delete hotspot`, assert the hotspot-marker count,
capture a screenshot, and close the browser. -/
theorem C1_fixed_call_sequence :
    (∀ w : World, ((run w).1).Sublist fullScriptCalls) ∧
    (∀ w : World, (run w).2 = none → (run w).1 = fullScriptCalls) :=
  ⟨run_sublist, run_none_trace⟩

/-- C1 witness: in the world where every external call succeeds, the run
succeeds and its trace is exactly the full ten-call sequence. -/
theorem C1_fixed_call_sequence_witness :
    ((run allGoodWorld).1).Sublist fullScriptCalls ∧
    (run allGoodWorld).1 = fullScriptCalls :=
  ⟨C1_fixed_call_sequence.1 allGoodWorld,
   C1_fixed_call_sequence.2 allGoodWorld (by decide)⟩

/-- C2 counterexample: in the run where `browser.new_context()` raises,
an error propagates out of the script and `browser.close()` is never
called — so browser close is not guaranteed on every exit path, refuting
the claim that the cleanup block wraps the whole scenario. -/
theorem C2_close_counterexample :
    (run ctxFailWorld).2 ≠ none ∧
    Call.closeBrowser ∉ (run ctxFailWorld).1 := by decide

/-- C2 (amended): `browser.close()` is called exactly on the runs in
which launch, context creation and page creation all succeed — the
guaranteed-cleanup block wraps only navigation onward (lines 9–23), not
the whole scenario, so close is guaranteed on every exit path of the
scenario body but not when context or page creation raises. -/
theorem C2_close_guarantee (w : World) :
    Call.closeBrowser ∈ (run w).1 ↔
      (w.launchOk = true ∧ w.contextOk = true ∧ w.pageOk = true) := by
  rcases h1 : w.launchOk with _ | _
  · rw [run_launch_fail w h1]; simp [h1]
  rcases h2 : w.contextOk with _ | _
  · rw [run_context_fail w h1 h2]; simp [h1, h2]
  rcases h3 : w.pageOk with _ | _
  · rw [run_page_fail w h1 h2 h3]; simp [h1, h2, h3]
  rw [run_created w h1 h2 h3]
  simp [h1, h2, h3]

/-- C3 counterexample: on the successful run every screenshot call has
the full-page flag false — the script calls `page.screenshot` without
`full_page=True`, so it captures a viewport screenshot, refuting the
claim of a full-page screenshot. -/
theorem C3_fullpage_counterexample :
    (run allGoodWorld).2 = none ∧
    noFullPageShot (run allGoodWorld).1 = true ∧
    Call.screenshot screenshotPath false ∈ (run allGoodWorld).1 := by
  decide

/-- C3 (amended): in step 6 of a successful run the script captures a
viewport screenshot — the full-page flag is false, the Playwright
default when `full_page` is not passed — and writes it to the fixed
output path. -/
theorem C3_screenshot_viewport (w : World) (h : (run w).2 = none) :
    Call.screenshot screenshotPath false ∈ (run w).1 ∧
    noFullPageShot (run w).1 = true := by
  rw [run_none_trace w h]
  decide

/-- C3 witness: the amended claim at the world where every call
succeeds. -/
theorem C3_screenshot_viewport_witness :
    Call.screenshot screenshotPath false ∈ (run allGoodWorld).1 ∧
    noFullPageShot (run allGoodWorld).1 = true :=
  C3_screenshot_viewport allGoodWorld (by decide)

/-- C4: the process exit status is zero exactly when launch, context and
page creation, navigation, the three locator clicks, the zero-count
assertion, the screenshot and the browser close all succeed; any failure
propagates uncaught to the process boundary and yields a non-zero exit
status. -/
theorem C4_exit_status (w : World) : exitCode w = 0 ↔ allOk w := by
  have hiff := run_none_iff w
  unfold exitCode
  rcases h : (run w).2 with _ | e
  · rw [h] at hiff
    simp at hiff
    simp [hiff]
  · rw [h] at hiff
    simp at hiff
    simp [hiff]

/-- C5: when every step before the assertion succeeds but the hotspot
count at the assertion is non-zero, the run reaches the count assertion
(which expects exactly zero), fails there with a count-mismatch error,
and never reaches the screenshot step. -/
theorem C5_assert_zero_count (w : World)
    (h1 : w.launchOk = true) (h2 : w.contextOk = true) (h3 : w.pageOk = true)
    (h4 : w.gotoOk = true)
    (h5 : w.addButtonMatches = 1) (h6 : w.addClickOk = true)
    (h7 : w.hotspotMatches = 1) (h8 : w.hotspotClickOk = true)
    (h9 : w.deleteButtonMatches = 1) (h10 : w.deleteClickOk = true)
    (h11 : w.hotspotCountAfterDelete ≠ 0) :
    Call.expectCount hotspotLoc 0 ∈ (run w).1 ∧
    Call.screenshot screenshotPath false ∉ (run w).1 ∧
    (run w).2 ≠ none ∧
    (w.closeOk = true →
      (run w).2 =
        some (.countMismatch hotspotLoc 0 w.hotspotCountAfterDelete)) := by
  have hbody : tryBody w =
      ([Call.goto targetUrl, .click addHotspotLoc, .click hotspotLoc,
        .click deleteLoc, .expectCount hotspotLoc 0],
       some (.countMismatch hotspotLoc 0 w.hotspotCountAfterDelete)) := by
    simp [tryBody, scriptSteps, runSteps, clickOutcome, expectZeroOutcome,
      h4, h5, h6, h7, h8, h9, h10, h11]
  rw [run_created w h1 h2 h3, hbody]
  refine ⟨by simp, by simp, ?_, ?_⟩
  · rcases hc : w.closeOk with _ | _ <;> simp
  · intro hc
    simp [hc]

/-- C5 witness: the claim at the world where deletion leaves one marker
behind — the run fails at the assertion with actual count `1`. -/
theorem C5_assert_zero_count_witness :
    Call.expectCount hotspotLoc 0 ∈ (run staleHotspotWorld).1 ∧
    Call.screenshot screenshotPath false ∉ (run staleHotspotWorld).1 ∧
    (run staleHotspotWorld).2 ≠ none ∧
    (staleHotspotWorld.closeOk = true →
      (run staleHotspotWorld).2 =
        some (.countMismatch hotspotLoc 0
          staleHotspotWorld.hotspotCountAfterDelete)) :=
  C5_assert_zero_count staleHotspotWorld rfl rfl rfl rfl rfl rfl rfl rfl
    rfl rfl (by decide)

theorem writesOf_append (a b : List Call) :
    writesOf (a ++ b) = writesOf a ++ writesOf b := by
  simp [writesOf]

theorem writesOf_tryBody (w : World) :
    writesOf (tryBody w).1 =
      if (w.gotoOk &&
          (clickOutcome w.addButtonMatches w.addClickOk addHotspotLoc).isNone &&
          (clickOutcome w.hotspotMatches w.hotspotClickOk hotspotLoc).isNone &&
          (clickOutcome w.deleteButtonMatches w.deleteClickOk
            deleteLoc).isNone &&
          (w.hotspotCountAfterDelete == 0)) then [screenshotPath] else [] := by
  rcases hg : w.gotoOk with _ | _
  · simp [tryBody, scriptSteps, runSteps, writesOf, hg]
  · rcases ha : clickOutcome w.addButtonMatches w.addClickOk addHotspotLoc
        with _ | e
    · rcases hh : clickOutcome w.hotspotMatches w.hotspotClickOk hotspotLoc
          with _ | e
      · rcases hd : clickOutcome w.deleteButtonMatches w.deleteClickOk
            deleteLoc with _ | e
        · rcases hn : w.hotspotCountAfterDelete with _ | n
          · rcases hs : w.screenshotOk with _ | _ <;>
              simp [tryBody, scriptSteps, runSteps, writesOf,
                expectZeroOutcome, hg, ha, hh, hd, hn, hs]
          · simp [tryBody, scriptSteps, runSteps, writesOf,
              expectZeroOutcome, hg, ha, hh, hd, hn]
        · simp [tryBody, scriptSteps, runSteps, writesOf, hg, ha, hh, hd]
      · simp [tryBody, scriptSteps, runSteps, writesOf, hg, ha, hh]
    · simp [tryBody, scriptSteps, runSteps, writesOf, hg, ha]

/-- C6: on every run, the filesystem writes of the script are exactly one
image at the fixed relative path when control reaches the screenshot
statement — that is, when navigation, the three clicks and the
zero-count assertion have all succeeded — and nothing at all otherwise,
so a run failing at or before the assertion writes no file. -/
theorem C6_single_write (w : World) :
    writesOf (run w).1 =
      if reachesScreenshot w then [screenshotPath] else [] := by
  rcases h1 : w.launchOk with _ | _
  · rw [run_launch_fail w h1]; simp [writesOf, reachesScreenshot, h1]
  rcases h2 : w.contextOk with _ | _
  · rw [run_context_fail w h1 h2]
    simp [writesOf, reachesScreenshot, h1, h2]
  rcases h3 : w.pageOk with _ | _
  · rw [run_page_fail w h1 h2 h3]
    simp [writesOf, reachesScreenshot, h1, h2, h3]
  rw [run_created w h1 h2 h3]
  show writesOf ([Call.launch true, .newContext, .newPage] ++
      (tryBody w).1 ++ [Call.closeBrowser]) = _
  rw [writesOf_append, writesOf_append, writesOf_tryBody]
  simp [writesOf, reachesScreenshot, h1, h2, h3]

/-- C7: if no element matches the Add-Hotspot visible-text locator while
launch, context, page and navigation succeed, the run fails at step 2
with a locator-timeout error, and the later clicks, the assertion and
the screenshot are never executed — only the close of the `finally`
block follows. -/
theorem C7_missing_add_button (w : World)
    (h1 : w.launchOk = true) (h2 : w.contextOk = true) (h3 : w.pageOk = true)
    (h4 : w.gotoOk = true) (h5 : w.addButtonMatches = 0) :
    (run w).1 = [Call.launch true, .newContext, .newPage, .goto targetUrl,
      .click addHotspotLoc, .closeBrowser] ∧
    (run w).2 ≠ none ∧
    (w.closeOk = true → (run w).2 = some (.timeout addHotspotLoc)) := by
  have hbody : tryBody w = ([Call.goto targetUrl, .click addHotspotLoc],
      some (.timeout addHotspotLoc)) := by
    simp [tryBody, scriptSteps, runSteps, clickOutcome, h4, h5]
  rw [run_created w h1 h2 h3, hbody]
  refine ⟨by simp, ?_, ?_⟩
  · rcases hc : w.closeOk with _ | _ <;> simp
  · intro hc
    simp [hc]

/-- C7 witness: the claim at the world where the Add-Hotspot button is
absent. -/
theorem C7_missing_add_button_witness :
    (run noAddButtonWorld).1 = [Call.launch true, .newContext, .newPage,
      .goto targetUrl, .click addHotspotLoc, .closeBrowser] ∧
    (run noAddButtonWorld).2 ≠ none ∧
    (noAddButtonWorld.closeOk = true →
      (run noAddButtonWorld).2 = some (.timeout addHotspotLoc)) :=
  C7_missing_add_button noAddButtonWorld rfl rfl rfl rfl rfl

/-- C8: the script consumes no command-line flags, arguments or
environment variables — two invocations differing only in argv and
environment issue identical automation calls and produce identical
outcomes. -/
theorem C8_no_argv_env (a₁ a₂ : List String) (e₁ e₂ : List (String × String))
    (w : World) : mainEntry a₁ e₁ w = mainEntry a₂ e₂ w := rfl

/-- C9: the browser-close cleanup is guaranteed only from the navigation
step onward: if context creation or page creation raises (after a
successful launch), no `browser.close()` call is made, while once
launch, context and page creation have all succeeded the close call
appears on every exit path. -/
theorem C9_cleanup_scope :
    (∀ w : World, w.launchOk = true → w.contextOk = false →
      Call.closeBrowser ∉ (run w).1) ∧
    (∀ w : World, w.launchOk = true → w.contextOk = true →
      w.pageOk = false → Call.closeBrowser ∉ (run w).1) ∧
    (∀ w : World, w.launchOk = true → w.contextOk = true →
      w.pageOk = true → Call.closeBrowser ∈ (run w).1) := by
  refine ⟨?_, ?_, ?_⟩
  · intro w h1 h2
    rw [run_context_fail w h1 h2]
    decide
  · intro w h1 h2 h3
    rw [run_page_fail w h1 h2 h3]
    decide
  · intro w h1 h2 h3
    rw [run_created w h1 h2 h3]
    simp

/-- C9 witness: close is skipped when context creation or page creation
fails and performed when all three acquisitions succeed. -/
theorem C9_cleanup_scope_witness :
    Call.closeBrowser ∉ (run ctxFailWorld).1 ∧
    Call.closeBrowser ∉ (run pageFailWorld).1 ∧
    Call.closeBrowser ∈ (run allGoodWorld).1 :=
  ⟨C9_cleanup_scope.1 ctxFailWorld rfl rfl,
   C9_cleanup_scope.2.1 pageFailWorld rfl rfl rfl,
   C9_cleanup_scope.2.2 allGoodWorld rfl rfl rfl⟩

/-- C10: each click targets a strict single-match locator: when more
than one element matches the locator of a click step — the Add-Hotspot
button, the hotspot marker, or the delete button — the click raises a
strict-mode violation instead of clicking an arbitrary match, the error
propagates, and the run fails. -/
theorem C10_strict_mode :
    (∀ w : World, w.launchOk = true → w.contextOk = true →
      w.pageOk = true → w.gotoOk = true → 1 < w.addButtonMatches →
      (run w).2 ≠ none ∧
      (w.closeOk = true →
        (run w).2 = some (.strictModeViolation addHotspotLoc))) ∧
    (∀ w : World, w.launchOk = true → w.contextOk = true →
      w.pageOk = true → w.gotoOk = true →
      w.addButtonMatches = 1 → w.addClickOk = true →
      1 < w.hotspotMatches →
      (run w).2 ≠ none ∧
      (w.closeOk = true →
        (run w).2 = some (.strictModeViolation hotspotLoc))) ∧
    (∀ w : World, w.launchOk = true → w.contextOk = true →
      w.pageOk = true → w.gotoOk = true →
      w.addButtonMatches = 1 → w.addClickOk = true →
      w.hotspotMatches = 1 → w.hotspotClickOk = true →
      1 < w.deleteButtonMatches →
      (run w).2 ≠ none ∧
      (w.closeOk = true →
        (run w).2 = some (.strictModeViolation deleteLoc))) := by
  refine ⟨?_, ?_, ?_⟩
  · intro w h1 h2 h3 h4 h5
    have h50 : w.addButtonMatches ≠ 0 := by omega
    have hbody : tryBody w = ([Call.goto targetUrl, .click addHotspotLoc],
        some (.strictModeViolation addHotspotLoc)) := by
      simp [tryBody, scriptSteps, runSteps, clickOutcome, h4, h5, h50]
    rw [run_created w h1 h2 h3, hbody]
    refine ⟨?_, ?_⟩
    · rcases hc : w.closeOk with _ | _ <;> simp
    · intro hc
      simp [hc]
  · intro w h1 h2 h3 h4 h5 h6 h7
    have h70 : w.hotspotMatches ≠ 0 := by omega
    have hbody : tryBody w = ([Call.goto targetUrl, .click addHotspotLoc,
        .click hotspotLoc], some (.strictModeViolation hotspotLoc)) := by
      simp [tryBody, scriptSteps, runSteps, clickOutcome, h4, h5, h6, h7, h70]
    rw [run_created w h1 h2 h3, hbody]
    refine ⟨?_, ?_⟩
    · rcases hc : w.closeOk with _ | _ <;> simp
    · intro hc
      simp [hc]
  · intro w h1 h2 h3 h4 h5 h6 h7 h8 h9
    have h90 : w.deleteButtonMatches ≠ 0 := by omega
    have hbody : tryBody w = ([Call.goto targetUrl, .click addHotspotLoc,
        .click hotspotLoc, .click deleteLoc],
        some (.strictModeViolation deleteLoc)) := by
      simp [tryBody, scriptSteps, runSteps, clickOutcome, h4, h5, h6, h7,
        h8, h9, h90]
    rw [run_created w h1 h2 h3, hbody]
    refine ⟨?_, ?_⟩
    · rcases hc : w.closeOk with _ | _ <;> simp
    · intro hc
      simp [hc]

/-- C10 witness: the strict-mode failure at worlds with two matches for
the Add-Hotspot button, two hotspot markers, and two delete buttons. -/
theorem C10_strict_mode_witness :
    ((run multiAddWorld).2 ≠ none ∧
      (multiAddWorld.closeOk = true →
        (run multiAddWorld).2 =
          some (.strictModeViolation addHotspotLoc))) ∧
    ((run multiHotspotWorld).2 ≠ none ∧
      (multiHotspotWorld.closeOk = true →
        (run multiHotspotWorld).2 =
          some (.strictModeViolation hotspotLoc))) ∧
    ((run multiDeleteWorld).2 ≠ none ∧
      (multiDeleteWorld.closeOk = true →
        (run multiDeleteWorld).2 =
          some (.strictModeViolation deleteLoc))) :=
  ⟨C10_strict_mode.1 multiAddWorld rfl rfl rfl rfl (by decide),
   C10_strict_mode.2.1 multiHotspotWorld rfl rfl rfl rfl rfl rfl (by decide),
   C10_strict_mode.2.2 multiDeleteWorld rfl rfl rfl rfl rfl rfl rfl rfl
     (by decide)⟩
